import Mathlib

/-!
Shallow embedding of `src/services/audioEngine.ts` (the `AudioEngine` class
of the sonic-shell repository) in Lean 4.

The engine owns five lazily created instruments (`synth`, `kick`, `hat`,
`snare`, `poly`), a shared `analyser`, a list `scheduledEvents` of Transport
handle ids, and drives the global `Tone.Transport`.  `runCode` initializes,
stops the previous run, compiles the user script with the `Function`
constructor, executes it once (the script may register loops through the
`customLoop` primitive), and starts the Transport on success.

Modelling decisions:
* Machine state (instrument fields, analyser, the Transport clock and its
  schedule) is an explicit record `EngineState`; methods are state-passing
  functions.
* A user script is embedded as data: either the `Function` constructor throws
  (`Script.syntaxError`, a syntax error in the text) or the body is a list of
  top-level statements, each of which registers a loop, throws, or does
  something with no engine-visible effect (`Stmt.nop` stands for any such
  statement, e.g. triggering a note).
* Loop callbacks are functions `Nat → Except String Unit` from the scheduled
  tick time to either normal completion or a thrown message.
* `Tone.Transport.start()` additionally bumps a call counter `startCalls`,
  so "start was never called during this invocation" is directly statable.
* Log output (the `logCallback` parameter of `runCode`) is modelled as the
  returned list of `(message, type)` entries, in call order.
-/

/-- The `type` argument of `logCallback : (msg, type) => void`. -/
inductive LogType
| info
| error
deriving Repr, DecidableEq

/-- One call to `logCallback`. -/
structure LogEntry where
  msg : String
  type : LogType
deriving Repr, DecidableEq

/-- The analyser modes `'waveform' | 'fft'`. -/
inductive AnalyserType
| waveform
| fft
deriving Repr, DecidableEq

/-- A `Tone.Analyser` instance: identity of the created object and its type. -/
structure Analyser where
  objId : Nat
  atype : AnalyserType
  size : Nat
deriving Repr, DecidableEq

/-- What kind of Tone voice an instrument field holds. -/
inductive VoiceKind
| monoSynth
| membraneSynth
| metalSynth
| noiseSynth
| polySynth
deriving Repr, DecidableEq

/-- One instrument object of the pool.  `objId` is the identity of the created
object (fresh at creation), `connectedTo` the analyser it was `.connect`ed to,
`volume` its `volume.value`, and `active` whether a triggered note is still
sounding (set to `false` by `triggerRelease` / `releaseAll`). -/
structure Voice where
  objId : Nat
  kind : VoiceKind
  connectedTo : Nat
  volume : Int
  active : Bool
deriving Repr, DecidableEq

/-- A callback registered with `Tone.Transport.scheduleRepeat`: the loop name
and interval (kept for the wrapper log message), and the raw user callback,
which at a tick either completes or throws a message. -/
structure ScheduledLoop where
  id : Nat
  name : String
  interval : String
  callback : Nat → Except String Unit

/-- The state of the engine singleton together with the global Tone state it
uses (audio context, Transport clock and schedule). -/
structure EngineState where
  synth : Option Voice
  kick : Option Voice
  hat : Option Voice
  snare : Option Voice
  poly : Option Voice
  analyser : Option Analyser
  scheduledEvents : List Nat
  contextStarted : Bool
  transportRunning : Bool
  transportPosition : Nat
  schedule : List ScheduledLoop
  nextEventId : Nat
  freshId : Nat
  startCalls : Nat

/-- The engine before anything ran: every instrument field is `null`,
the schedule is empty, the audio context is not started. -/
def initialState : EngineState :=
  { synth := none, kick := none, hat := none, snare := none, poly := none
    analyser := none, scheduledEvents := [], contextStarted := false
    transportRunning := false, transportPosition := 0, schedule := []
    nextEventId := 0, freshId := 0, startCalls := 0 }

/-- `interface ExecutionResult { success: boolean; error?: string }`. -/
structure ExecutionResult where
  success : Bool
  error : Option String
deriving Repr, DecidableEq

/-- The browser environment: whether a qualifying user gesture has granted
audio permission, so that `Tone.start()` can resolve. -/
structure Env where
  userGesture : Bool
deriving Repr, DecidableEq

/-- The message of the error `Tone.start()` rejects with when the audio
output device cannot be acquired (no user-gesture permission yet). -/
def initErrorMsg : String :=
  "The AudioContext was not allowed to start"

/-- `await Tone.start()`: resolves at once if the context is already running;
otherwise it needs a user gesture, and rejects without one. -/
def toneStart (env : Env) (s : EngineState) : Except String EngineState :=
  if s.contextStarted then .ok s
  else if env.userGesture then .ok { s with contextStarted := true }
  else .error initErrorMsg

/-- `if (!this.analyser) { this.analyser = new Tone.Analyser("waveform", 2048);
this.analyser.toDestination(); }` -/
def createAnalyser (s : EngineState) : EngineState :=
  match s.analyser with
  | some _ => s
  | none =>
      { s with analyser := some ⟨s.freshId, .waveform, 2048⟩
               freshId := s.freshId + 1 }

/-- The analyser id new instruments connect to (`connect(this.analyser)`);
`initialize` only creates instruments after the analyser exists. -/
def analyserId (s : EngineState) : Nat :=
  match s.analyser with
  | some a => a.objId
  | none => 0

/-- `if (!this.synth) { this.synth = new Tone.MonoSynth({...}).connect(this.analyser) }` -/
def createSynth (s : EngineState) : EngineState :=
  match s.synth with
  | some _ => s
  | none =>
      { s with synth := some ⟨s.freshId, .monoSynth, analyserId s, 0, false⟩
               freshId := s.freshId + 1 }

/-- `if (!this.kick) { this.kick = new Tone.MembraneSynth({...}).connect(this.analyser) }` -/
def createKick (s : EngineState) : EngineState :=
  match s.kick with
  | some _ => s
  | none =>
      { s with kick := some ⟨s.freshId, .membraneSynth, analyserId s, 0, false⟩
               freshId := s.freshId + 1 }

/-- `if (!this.hat) { this.hat = new Tone.MetalSynth({...}).connect(this.analyser);
this.hat.volume.value = -10 }` -/
def createHat (s : EngineState) : EngineState :=
  match s.hat with
  | some _ => s
  | none =>
      { s with hat := some ⟨s.freshId, .metalSynth, analyserId s, -10, false⟩
               freshId := s.freshId + 1 }

/-- `if (!this.snare) { this.snare = new Tone.NoiseSynth({...}).connect(this.analyser);
this.snare.volume.value = -8 }` -/
def createSnare (s : EngineState) : EngineState :=
  match s.snare with
  | some _ => s
  | none =>
      { s with snare := some ⟨s.freshId, .noiseSynth, analyserId s, -8, false⟩
               freshId := s.freshId + 1 }

/-- `if (!this.poly) { this.poly = new Tone.PolySynth(Tone.Synth, {...}).connect(this.analyser);
this.poly.volume.value = -12 }` -/
def createPoly (s : EngineState) : EngineState :=
  match s.poly with
  | some _ => s
  | none =>
      { s with poly := some ⟨s.freshId, .polySynth, analyserId s, -12, false⟩
               freshId := s.freshId + 1 }

/-- The body of `initialize` after `Tone.start()`: create the analyser and
each missing instrument, in source order. -/
def createInstruments (s : EngineState) : EngineState :=
  createPoly (createSnare (createHat (createKick (createSynth (createAnalyser s)))))

/-- `AudioEngine.initialize()` (named `initializeEngine` here):
`await Tone.start()`, then create the analyser and each missing instrument. -/
def initializeEngine (env : Env) (s : EngineState) : Except String EngineState :=
  (toneStart env s).map createInstruments

/-- `poly.releaseAll()` / `synth.triggerRelease()`: the voice enters its
release phase, no note keeps sounding. -/
def releaseVoice (v : Voice) : Voice :=
  { v with active := false }

/-- `AudioEngine.stop()`: `Tone.Transport.stop()` (halts the clock and resets
its position), `Tone.Transport.cancel()` (clears all scheduled events),
`this.scheduledEvents = []`, then `if (this.poly) this.poly.releaseAll()` and
`if (this.synth) this.synth.triggerRelease()`. -/
def stop (s : EngineState) : EngineState :=
  let s1 := { s with transportRunning := false, transportPosition := 0
                     schedule := [], scheduledEvents := [] }
  let s2 := match s1.poly with
            | some v => { s1 with poly := some (releaseVoice v) }
            | none => s1
  match s2.synth with
  | some v => { s2 with synth := some (releaseVoice v) }
  | none => s2

/-- A single apostrophe, as it appears in the log message templates. -/
def apos : String := String.singleton (Char.ofNat 39)

/-- The info message logged by `customLoop` at registration time. -/
def schedulingMsg (name interval : String) : String :=
  "Scheduling loop: " ++ name ++ " @ " ++ interval

/-- The error message the loop wrapper logs when the user callback throws. -/
def runtimeErrMsg (name errMsg : String) : String :=
  "Runtime Error inside loop " ++ apos ++ name ++ apos ++ ": " ++ errMsg

/-- The error message logged by `runCode` in its catch block. -/
def compileErrMsg (errMsg : String) : String :=
  "Compilation Error: " ++ errMsg

/-- The callback `customLoop` hands to `Tone.Transport.scheduleRepeat`: it
runs the user callback in a `try`, and on a throw logs one error line tagged
with the loop name and swallows the exception.  The total return type (a list
of log entries, no `Except`) reflects that no exception escapes the wrapper. -/
def loopWrapper (name : String) (callback : Nat → Except String Unit)
    (time : Nat) : List LogEntry :=
  match callback time with
  | .ok _ => []
  | .error e => [⟨runtimeErrMsg name e, .error⟩]

/-- One tick of the Transport at time `time`.  Modelled from Tone.js
`Transport.scheduleRepeat` semantics: while the Transport runs, every
scheduled callback fires at each of its tick times and stays scheduled until
`Transport.cancel`; the engine state is untouched because the wrapper neither
rethrows nor stops or cancels anything.  Returns the log entries emitted. -/
def transportTick (s : EngineState) (time : Nat) : EngineState × List LogEntry :=
  if s.transportRunning then
    (s, (s.schedule.map fun l => loopWrapper l.name l.callback time).flatten)
  else (s, [])

/-- `const customLoop = (name, interval, callback) => {...}`: log the
registration notice, `Tone.Transport.scheduleRepeat(wrapped, interval)`
(returns a fresh id and appends to the Transport schedule), and push the id
onto `this.scheduledEvents`. -/
def customLoop (name interval : String) (callback : Nat → Except String Unit)
    (s : EngineState) (logs : List LogEntry) : EngineState × List LogEntry :=
  let logs1 := logs ++ [⟨schedulingMsg name interval, .info⟩]
  let id := s.nextEventId
  let s1 := { s with schedule := s.schedule ++ [⟨id, name, interval, callback⟩]
                     nextEventId := id + 1
                     scheduledEvents := s.scheduledEvents ++ [id] }
  (s1, logs1)

/-- One top-level statement of a user script body, by its engine-visible
effect: a call of the `loop` primitive, a thrown exception, or anything
else (note triggers, local computation). -/
inductive Stmt
| loopReg (name interval : String) (callback : Nat → Except String Unit)
| throwErr (msg : String)
| nop

/-- A user script: either the `Function` constructor itself throws on the
text (syntax error), or it compiles to a body of top-level statements. -/
inductive Script
| syntaxError (msg : String)
| body (stmts : List Stmt)

/-- Run the compiled script body once, synchronously: statements execute in
order; a `loopReg` goes through `customLoop`; a throw aborts the rest and
surfaces as `some msg`. -/
def execStmts : List Stmt → EngineState → List LogEntry →
    EngineState × List LogEntry × Option String
  | [], s, logs => (s, logs, none)
  | Stmt.loopReg name interval cb :: rest, s, logs =>
      let p := customLoop name interval cb s logs
      execStmts rest p.1 p.2
  | Stmt.throwErr m :: _, s, logs => (s, logs, some m)
  | Stmt.nop :: rest, s, logs => execStmts rest s logs

/-- The value bound to one parameter of the compiled script unit. -/
inductive SandboxValue
| instrument (v : Option Voice)
| loopPrim
| toneNamespace

/-- The parameter names of `new Function('synth','kick','hat','snare','poly',
'loop','Tone', body)`: the complete list of free names the compiled unit is
given, in source order. -/
def sandboxParams : List String :=
  ["synth", "kick", "hat", "snare", "poly", "loop", "Tone"]

/-- The arguments of the call `runUserScript(this.synth, this.kick, this.hat,
this.snare, this.poly, customLoop, Tone)`, in source order. -/
def sandboxArgs (s : EngineState) : List SandboxValue :=
  [.instrument s.synth, .instrument s.kick, .instrument s.hat,
   .instrument s.snare, .instrument s.poly, .loopPrim, .toneNamespace]

/-- The parameter-based environment the compiled unit closes over: each
sandbox parameter name paired with the value passed for it. -/
def sandboxEnv (s : EngineState) : List (String × SandboxValue) :=
  sandboxParams.zip (sandboxArgs s)

/-- `Tone.Transport.start()`: the clock begins running; `startCalls` counts
the invocations so a claim can state that `start` was never called. -/
def transportStart (s : EngineState) : EngineState :=
  { s with transportRunning := true, startCalls := s.startCalls + 1 }

/-- `AudioEngine.runCode(code, logCallback)`: initialize (may reject),
stop the previous run, compile (`new Function`, may throw), execute once,
and on success start the Transport; any throw is caught, logged as
`Compilation Error: ...` and returned as `{success:false, error}`.
Returns the result, the final state, and the log entries emitted. -/
def runCode (env : Env) (script : Script) (s : EngineState) :
    ExecutionResult × EngineState × List LogEntry :=
  match initializeEngine env s with
  | .error m =>
      (⟨false, some m⟩, s, [⟨compileErrMsg m, .error⟩])
  | .ok s1 =>
      let s2 := stop s1
      match script with
      | .syntaxError m =>
          (⟨false, some m⟩, s2, [⟨compileErrMsg m, .error⟩])
      | .body stmts =>
          let r := execStmts stmts s2 []
          match r.2.2 with
          | some m =>
              (⟨false, some m⟩, r.1, r.2.1 ++ [⟨compileErrMsg m, .error⟩])
          | none =>
              (⟨true, none⟩, transportStart r.1, r.2.1)

/-- The message of the synchronous throw a script produces, if any: a syntax
error message, or the first top-level `throw` of the body. -/
def scriptError : Script → Option String
  | .syntaxError m => some m
  | .body stmts => firstThrow stmts
where
  firstThrow : List Stmt → Option String
    | [] => none
    | Stmt.loopReg _ _ _ :: rest => firstThrow rest
    | Stmt.throwErr m :: _ => some m
    | Stmt.nop :: rest => firstThrow rest

/-- The loops a script body registers before its first throw, given the
Transport id counter at execution start: the `ScheduledLoop` records that
end up in the Transport schedule. -/
def stmtsLoops : List Stmt → Nat → List ScheduledLoop
  | [], _ => []
  | Stmt.loopReg name interval cb :: rest, n =>
      ⟨n, name, interval, cb⟩ :: stmtsLoops rest (n + 1)
  | Stmt.throwErr _ :: _, _ => []
  | Stmt.nop :: rest, n => stmtsLoops rest n

/-- The loops a script registers (empty for a syntax error). -/
def scriptLoops : Script → Nat → List ScheduledLoop
  | .syntaxError _, _ => []
  | .body stmts, n => stmtsLoops stmts n

/-- A loop callback that throws on tick 3 and completes on every other tick. -/
def throwsOnTick3 : Nat → Except String Unit :=
  fun t => if t = 3 then .error "boom" else .ok ()

/-- A running engine with one scheduled loop, named bass, whose callback
throws on tick 3. -/
def runningWithBassLoop : EngineState :=
  { initialState with
      contextStarted := true, transportRunning := true
      schedule := [⟨0, "bass", "8n", throwsOnTick3⟩]
      scheduledEvents := [0], nextEventId := 1 }

/-- A voice holding a note (a trigger without a matching release yet). -/
def heldVoice (n : Nat) (k : VoiceKind) (vol : Int) : Voice :=
  ⟨n, k, 0, vol, true⟩

/-- An initialized pool in which every one of the five voices is holding a
note when `stop` is called. -/
def heldPool : EngineState :=
  { initialState with
      analyser := some ⟨0, .waveform, 2048⟩
      synth := some (heldVoice 1 .monoSynth 0)
      kick := some (heldVoice 2 .membraneSynth 0)
      hat := some (heldVoice 3 .metalSynth (-10))
      snare := some (heldVoice 4 .noiseSynth (-8))
      poly := some (heldVoice 5 .polySynth (-12))
      contextStarted := true, freshId := 6 }

/-! ### Helper lemmas -/

theorem stop_spec (s : EngineState) :
    (stop s).transportRunning = false ∧ (stop s).transportPosition = 0 ∧
    (stop s).schedule = [] ∧ (stop s).scheduledEvents = [] ∧
    (stop s).kick = s.kick ∧ (stop s).hat = s.hat ∧ (stop s).snare = s.snare ∧
    (stop s).analyser = s.analyser ∧ (stop s).contextStarted = s.contextStarted ∧
    (stop s).nextEventId = s.nextEventId ∧ (stop s).freshId = s.freshId ∧
    (stop s).startCalls = s.startCalls ∧
    (stop s).poly = s.poly.map releaseVoice ∧
    (stop s).synth = s.synth.map releaseVoice := by
  cases hp : s.poly <;> cases hs : s.synth <;> simp [stop, hp, hs]

theorem createInstruments_frame (s : EngineState) :
    (createInstruments s).contextStarted = s.contextStarted ∧
    (createInstruments s).scheduledEvents = s.scheduledEvents ∧
    (createInstruments s).schedule = s.schedule ∧
    (createInstruments s).transportRunning = s.transportRunning ∧
    (createInstruments s).transportPosition = s.transportPosition ∧
    (createInstruments s).nextEventId = s.nextEventId ∧
    (createInstruments s).startCalls = s.startCalls := by
  cases ha : s.analyser <;> cases h1 : s.synth <;> cases h2 : s.kick <;>
    cases h3 : s.hat <;> cases h4 : s.snare <;> cases h5 : s.poly <;>
      simp [createInstruments, createAnalyser, createSynth, createKick,
            createHat, createSnare, createPoly, ha, h1, h2, h3, h4, h5]

theorem createInstruments_isSome (s : EngineState) :
    (createInstruments s).analyser.isSome ∧ (createInstruments s).synth.isSome ∧
    (createInstruments s).kick.isSome ∧ (createInstruments s).hat.isSome ∧
    (createInstruments s).snare.isSome ∧ (createInstruments s).poly.isSome := by
  cases ha : s.analyser <;> cases h1 : s.synth <;> cases h2 : s.kick <;>
    cases h3 : s.hat <;> cases h4 : s.snare <;> cases h5 : s.poly <;>
      simp [createInstruments, createAnalyser, createSynth, createKick,
            createHat, createSnare, createPoly, ha, h1, h2, h3, h4, h5]

theorem createInstruments_keeps (s : EngineState) :
    (∀ v, s.analyser = some v → (createInstruments s).analyser = some v) ∧
    (∀ v, s.synth = some v → (createInstruments s).synth = some v) ∧
    (∀ v, s.kick = some v → (createInstruments s).kick = some v) ∧
    (∀ v, s.hat = some v → (createInstruments s).hat = some v) ∧
    (∀ v, s.snare = some v → (createInstruments s).snare = some v) ∧
    (∀ v, s.poly = some v → (createInstruments s).poly = some v) := by
  cases ha : s.analyser <;> cases h1 : s.synth <;> cases h2 : s.kick <;>
    cases h3 : s.hat <;> cases h4 : s.snare <;> cases h5 : s.poly <;>
      simp [createInstruments, createAnalyser, createSynth, createKick,
            createHat, createSnare, createPoly, ha, h1, h2, h3, h4, h5]

theorem createInstruments_eq_self (s : EngineState)
    (ha : s.analyser.isSome) (h1 : s.synth.isSome) (h2 : s.kick.isSome)
    (h3 : s.hat.isSome) (h4 : s.snare.isSome) (h5 : s.poly.isSome) :
    createInstruments s = s := by
  obtain ⟨a, ha⟩ := Option.isSome_iff_exists.mp ha
  obtain ⟨v1, h1⟩ := Option.isSome_iff_exists.mp h1
  obtain ⟨v2, h2⟩ := Option.isSome_iff_exists.mp h2
  obtain ⟨v3, h3⟩ := Option.isSome_iff_exists.mp h3
  obtain ⟨v4, h4⟩ := Option.isSome_iff_exists.mp h4
  obtain ⟨v5, h5⟩ := Option.isSome_iff_exists.mp h5
  simp [createInstruments, createAnalyser, createSynth, createKick,
        createHat, createSnare, createPoly, ha, h1, h2, h3, h4, h5]

theorem initializeEngine_ok (env : Env) (s : EngineState)
    (h : s.contextStarted = true ∨ env.userGesture = true) :
    initializeEngine env s = .ok (createInstruments s) ∨
    initializeEngine env s =
      .ok (createInstruments { s with contextStarted := true }) := by
  rcases h with h | h
  · exact Or.inl (by simp [initializeEngine, toneStart, h, Except.map])
  · by_cases hc : s.contextStarted = true
    · exact Or.inl (by simp [initializeEngine, toneStart, hc, Except.map])
    · exact Or.inr (by simp [initializeEngine, toneStart, hc, h, Except.map])

theorem initializeEngine_spec (env : Env) (s s₁ : EngineState)
    (h : initializeEngine env s = .ok s₁) :
    s₁.contextStarted = true ∧
    s₁.analyser.isSome ∧ s₁.synth.isSome ∧ s₁.kick.isSome ∧
    s₁.hat.isSome ∧ s₁.snare.isSome ∧ s₁.poly.isSome ∧
    s₁.scheduledEvents = s.scheduledEvents ∧ s₁.schedule = s.schedule ∧
    s₁.transportRunning = s.transportRunning ∧
    s₁.transportPosition = s.transportPosition ∧
    s₁.nextEventId = s.nextEventId ∧ s₁.startCalls = s.startCalls := by
  by_cases hc : s.contextStarted = true
  · have h1 : s₁ = createInstruments s := by
      simp [initializeEngine, toneStart, hc, Except.map] at h
      exact h.symm
    subst h1
    refine ⟨?_, (createInstruments_isSome s).1, (createInstruments_isSome s).2.1,
      (createInstruments_isSome s).2.2.1, (createInstruments_isSome s).2.2.2.1,
      (createInstruments_isSome s).2.2.2.2.1, (createInstruments_isSome s).2.2.2.2.2,
      (createInstruments_frame s).2.1, (createInstruments_frame s).2.2.1,
      (createInstruments_frame s).2.2.2.1, (createInstruments_frame s).2.2.2.2.1,
      (createInstruments_frame s).2.2.2.2.2.1, (createInstruments_frame s).2.2.2.2.2.2⟩
    rw [(createInstruments_frame s).1, hc]
  · by_cases hg : env.userGesture = true
    · have h1 : s₁ = createInstruments { s with contextStarted := true } := by
        simp [initializeEngine, toneStart, hc, hg, Except.map] at h
        exact h.symm
      subst h1
      set t : EngineState := { s with contextStarted := true } with ht
      refine ⟨?_, (createInstruments_isSome t).1, (createInstruments_isSome t).2.1,
        (createInstruments_isSome t).2.2.1, (createInstruments_isSome t).2.2.2.1,
        (createInstruments_isSome t).2.2.2.2.1, (createInstruments_isSome t).2.2.2.2.2,
        ?_, ?_, ?_, ?_, ?_, ?_⟩
      · rw [(createInstruments_frame t).1]
      · rw [(createInstruments_frame t).2.1]
      · rw [(createInstruments_frame t).2.2.1]
      · rw [(createInstruments_frame t).2.2.2.1]
      · rw [(createInstruments_frame t).2.2.2.2.1]
      · rw [(createInstruments_frame t).2.2.2.2.2.1]
      · rw [(createInstruments_frame t).2.2.2.2.2.2]
    · simp [initializeEngine, toneStart, hc, hg, Except.map] at h

theorem initializeEngine_keeps (env : Env) (s s₁ : EngineState)
    (h : initializeEngine env s = .ok s₁) :
    (∀ v, s.analyser = some v → s₁.analyser = some v) ∧
    (∀ v, s.synth = some v → s₁.synth = some v) ∧
    (∀ v, s.kick = some v → s₁.kick = some v) ∧
    (∀ v, s.hat = some v → s₁.hat = some v) ∧
    (∀ v, s.snare = some v → s₁.snare = some v) ∧
    (∀ v, s.poly = some v → s₁.poly = some v) := by
  by_cases hc : s.contextStarted = true
  · have h1 : s₁ = createInstruments s := by
      simp [initializeEngine, toneStart, hc, Except.map] at h
      exact h.symm
    subst h1
    exact createInstruments_keeps s
  · by_cases hg : env.userGesture = true
    · have h1 : s₁ = createInstruments { s with contextStarted := true } := by
        simp [initializeEngine, toneStart, hc, hg, Except.map] at h
        exact h.symm
      subst h1
      have hk := createInstruments_keeps { s with contextStarted := true }
      exact ⟨fun v hv => hk.1 v hv, fun v hv => hk.2.1 v hv,
        fun v hv => hk.2.2.1 v hv, fun v hv => hk.2.2.2.1 v hv,
        fun v hv => hk.2.2.2.2.1 v hv, fun v hv => hk.2.2.2.2.2 v hv⟩
    · simp [initializeEngine, toneStart, hc, hg, Except.map] at h

theorem execStmts_frame (stmts : List Stmt) :
    ∀ (s : EngineState) (logs : List LogEntry),
    (execStmts stmts s logs).1.synth = s.synth ∧
    (execStmts stmts s logs).1.kick = s.kick ∧
    (execStmts stmts s logs).1.hat = s.hat ∧
    (execStmts stmts s logs).1.snare = s.snare ∧
    (execStmts stmts s logs).1.poly = s.poly ∧
    (execStmts stmts s logs).1.analyser = s.analyser ∧
    (execStmts stmts s logs).1.contextStarted = s.contextStarted ∧
    (execStmts stmts s logs).1.transportRunning = s.transportRunning ∧
    (execStmts stmts s logs).1.transportPosition = s.transportPosition ∧
    (execStmts stmts s logs).1.freshId = s.freshId ∧
    (execStmts stmts s logs).1.startCalls = s.startCalls := by
  induction stmts with
  | nil => intro s logs; simp [execStmts]
  | cons st rest ih =>
    intro s logs
    cases st with
    | loopReg name interval cb =>
        simpa [execStmts, customLoop] using
          ih (customLoop name interval cb s logs).1 (customLoop name interval cb s logs).2
    | throwErr m => simp [execStmts]
    | nop => simpa [execStmts] using ih s logs

theorem execStmts_sched (stmts : List Stmt) :
    ∀ (s : EngineState) (logs : List LogEntry),
    (execStmts stmts s logs).1.schedule = s.schedule ++ stmtsLoops stmts s.nextEventId ∧
    (execStmts stmts s logs).1.scheduledEvents =
      s.scheduledEvents ++ (stmtsLoops stmts s.nextEventId).map ScheduledLoop.id := by
  induction stmts with
  | nil => intro s logs; simp [execStmts, stmtsLoops]
  | cons st rest ih =>
    intro s logs
    cases st with
    | loopReg name interval cb =>
        have h := ih (customLoop name interval cb s logs).1
          (customLoop name interval cb s logs).2
        simp [execStmts, customLoop, stmtsLoops] at h ⊢
        rw [h.1, h.2]
        simp
    | throwErr m => simp [execStmts, stmtsLoops]
    | nop => simpa [execStmts, stmtsLoops] using ih s logs

theorem execStmts_err (stmts : List Stmt) :
    ∀ (s : EngineState) (logs : List LogEntry),
    (execStmts stmts s logs).2.2 = scriptError.firstThrow stmts := by
  induction stmts with
  | nil => intro s logs; simp [execStmts, scriptError.firstThrow]
  | cons st rest ih =>
    intro s logs
    cases st with
    | loopReg name interval cb =>
        simpa [execStmts, scriptError.firstThrow] using
          ih (customLoop name interval cb s logs).1 (customLoop name interval cb s logs).2
    | throwErr m => simp [execStmts, scriptError.firstThrow]
    | nop => simpa [execStmts, scriptError.firstThrow] using ih s logs

theorem runCode_spec (env : Env) (script : Script) (s s₁ : EngineState)
    (hinit : initializeEngine env s = .ok s₁) :
    (runCode env script s).2.1.schedule = scriptLoops script s.nextEventId ∧
    (runCode env script s).2.1.scheduledEvents =
      (scriptLoops script s.nextEventId).map ScheduledLoop.id ∧
    (runCode env script s).2.1.contextStarted = true ∧
    (scriptError script = none →
       (runCode env script s).1 = ⟨true, none⟩ ∧
       (runCode env script s).2.1.transportRunning = true ∧
       (runCode env script s).2.1.startCalls = s.startCalls + 1) ∧
    (∀ m, scriptError script = some m →
       (runCode env script s).1 = ⟨false, some m⟩ ∧
       (runCode env script s).2.1.transportRunning = false ∧
       (runCode env script s).2.1.startCalls = s.startCalls ∧
       ⟨compileErrMsg m, LogType.error⟩ ∈ (runCode env script s).2.2) := by
  obtain ⟨hctx, -, -, -, -, -, -, hse, hsch, -, -, hnext, hsc⟩ :=
    initializeEngine_spec env s s₁ hinit
  have hstop := stop_spec s₁
  cases script with
  | syntaxError m =>
      simp only [runCode, hinit]
      refine ⟨?_, ?_, ?_, ?_, ?_⟩
      · simpa [scriptLoops] using hstop.2.2.1
      · simpa [scriptLoops] using hstop.2.2.2.1
      · rw [hstop.2.2.2.2.2.2.2.2.1, hctx]
      · intro hnone; simp [scriptError] at hnone
      · intro m' hm'
        simp only [scriptError, Option.some.injEq] at hm'
        subst hm'
        refine ⟨rfl, hstop.1, ?_, by simp⟩
        rw [hstop.2.2.2.2.2.2.2.2.2.2.2.1, hsc]
  | body stmts =>
      have hferr := execStmts_err stmts (stop s₁) []
      have hfrm := execStmts_frame stmts (stop s₁) []
      have hsched := execStmts_sched stmts (stop s₁) []
      have hnext2 : (stop s₁).nextEventId = s.nextEventId :=
        (stop_spec s₁).2.2.2.2.2.2.2.2.2.1.trans hnext
      cases herr : scriptError.firstThrow stmts with
      | none =>
          simp only [runCode, hinit, hferr, herr]
          refine ⟨?_, ?_, ?_, ?_, ?_⟩
          · simp only [transportStart, scriptLoops]
            rw [hsched.1, hstop.2.2.1, hnext2]
            simp
          · simp only [transportStart, scriptLoops]
            rw [hsched.2, hstop.2.2.2.1, hnext2]
            simp
          · simp only [transportStart]
            rw [hfrm.2.2.2.2.2.2.1, hstop.2.2.2.2.2.2.2.2.1, hctx]
          · intro hnone
            refine ⟨by trivial, by simp [transportStart], ?_⟩
            simp only [transportStart]
            rw [hfrm.2.2.2.2.2.2.2.2.2.2, hstop.2.2.2.2.2.2.2.2.2.2.2.1, hsc]
          · intro m hm
            simp [scriptError, herr] at hm
      | some m =>
          simp only [runCode, hinit, hferr, herr]
          refine ⟨?_, ?_, ?_, ?_, ?_⟩
          · simp only [scriptLoops]
            rw [hsched.1, hstop.2.2.1, hnext2]
            simp
          · simp only [scriptLoops]
            rw [hsched.2, hstop.2.2.2.1, hnext2]
            simp
          · rw [hfrm.2.2.2.2.2.2.1, hstop.2.2.2.2.2.2.2.2.1, hctx]
          · intro hnone; simp [scriptError, herr] at hnone
          · intro m' hm'
            simp only [scriptError, herr, Option.some.injEq] at hm'
            subst hm'
            refine ⟨rfl, ?_, ?_, by simp⟩
            · rw [hfrm.2.2.2.2.2.2.2.1, hstop.1]
            · rw [hfrm.2.2.2.2.2.2.2.2.2.2, hstop.2.2.2.2.2.2.2.2.2.2.2.1, hsc]

/-! ### Claims -/

/-- C1, counterexample: the claim says every script whose compilation or
synchronous execution throws yields `{success:false}` with a NON-EMPTY error
message.  A script whose top-level code throws an error carrying an empty
message (`throw new Error("")`) is caught and returned with `error` equal to
that empty message, so the non-emptiness part fails at this input. -/
theorem c1_counterexample :
    (runCode ⟨true⟩ (Script.body [Stmt.throwErr ""]) initialState).1 =
      ⟨false, some ""⟩ ∧
    ∀ m, (runCode ⟨true⟩ (Script.body [Stmt.throwErr ""]) initialState).1.error =
      some m → m = "" := by
  refine ⟨rfl, ?_⟩
  intro m hm
  have h0 : (runCode ⟨true⟩ (Script.body [Stmt.throwErr ""]) initialState).1.error =
      some "" := rfl
  rw [h0] at hm
  exact (Option.some.inj hm).symm

/-- C1, amended: for every script whose compilation (`Function` construction)
or synchronous top-level execution throws (initialization having succeeded),
`runCode` catches the error, logs a `Compilation Error:` line, returns
`{success:false}` with the thrown error message (which is non-empty whenever
the thrown error carries a non-empty message, as engine-generated syntax and
reference errors do), and `Tone.Transport.start()` is not called during that
invocation. -/
theorem c1_runCode_throw (env : Env) (script : Script) (s s₁ : EngineState)
    (hinit : initializeEngine env s = .ok s₁) (m : String)
    (herr : scriptError script = some m) :
    (runCode env script s).1 = ⟨false, some m⟩ ∧
    (runCode env script s).2.1.transportRunning = false ∧
    (runCode env script s).2.1.startCalls = s.startCalls ∧
    ⟨compileErrMsg m, LogType.error⟩ ∈ (runCode env script s).2.2 :=
  (runCode_spec env script s s₁ hinit).2.2.2.2 m herr

/-- Witness for C1 at a concrete throwing script. -/
theorem c1_witness :
    initializeEngine ⟨true⟩ initialState =
      .ok (createInstruments { initialState with contextStarted := true }) ∧
    scriptError (Script.body [Stmt.throwErr "boom"]) = some "boom" ∧
    ((runCode ⟨true⟩ (Script.body [Stmt.throwErr "boom"]) initialState).1 =
       ⟨false, some "boom"⟩ ∧
     (runCode ⟨true⟩ (Script.body [Stmt.throwErr "boom"]) initialState).2.1.transportRunning = false ∧
     (runCode ⟨true⟩ (Script.body [Stmt.throwErr "boom"]) initialState).2.1.startCalls =
       initialState.startCalls ∧
     ⟨compileErrMsg "boom", LogType.error⟩ ∈
       (runCode ⟨true⟩ (Script.body [Stmt.throwErr "boom"]) initialState).2.2) :=
  ⟨rfl, rfl, c1_runCode_throw ⟨true⟩ (Script.body [Stmt.throwErr "boom"]) initialState
    (createInstruments { initialState with contextStarted := true }) rfl "boom" rfl⟩

/-- C2: at most one set of active loops exists at any time.  Executing script
`a` and then script `b` (the audio context being available) leaves exactly
`b`'s registered loops in the Transport schedule and exactly their handles in
`scheduledEvents`, because `runCode` performs a full stop (Transport stop,
cancel of all scheduled events, clearing of the handle list) before executing
the new script. -/
theorem c2_two_runs (env : Env) (a b : Script) (s : EngineState)
    (h : s.contextStarted = true ∨ env.userGesture = true) :
    (runCode env b (runCode env a s).2.1).2.1.schedule =
      scriptLoops b (runCode env a s).2.1.nextEventId ∧
    (runCode env b (runCode env a s).2.1).2.1.scheduledEvents =
      (scriptLoops b (runCode env a s).2.1.nextEventId).map ScheduledLoop.id := by
  obtain ⟨s₁, hs₁⟩ : ∃ s₁, initializeEngine env s = .ok s₁ := by
    rcases initializeEngine_ok env s h with h1 | h1
    · exact ⟨_, h1⟩
    · exact ⟨_, h1⟩
  have hA := runCode_spec env a s s₁ hs₁
  obtain ⟨s₂, hs₂⟩ : ∃ s₂, initializeEngine env (runCode env a s).2.1 = .ok s₂ := by
    rcases initializeEngine_ok env _ (Or.inl hA.2.2.1) with h1 | h1
    · exact ⟨_, h1⟩
    · exact ⟨_, h1⟩
  have hB := runCode_spec env b (runCode env a s).2.1 s₂ hs₂
  exact ⟨hB.1, hB.2.1⟩

/-- Witness for C2 on two concrete scripts. -/
theorem c2_witness :
    (initialState.contextStarted = true ∨ Env.userGesture ⟨true⟩ = true) ∧
    ((runCode ⟨true⟩ (Script.body [Stmt.loopReg "kick" "4n" fun _ => Except.ok ()])
        (runCode ⟨true⟩ (Script.body [Stmt.loopReg "bass" "8n" fun _ => Except.ok ()])
          initialState).2.1).2.1.schedule =
      scriptLoops (Script.body [Stmt.loopReg "kick" "4n" fun _ => Except.ok ()])
        (runCode ⟨true⟩ (Script.body [Stmt.loopReg "bass" "8n" fun _ => Except.ok ()])
          initialState).2.1.nextEventId ∧
     (runCode ⟨true⟩ (Script.body [Stmt.loopReg "kick" "4n" fun _ => Except.ok ()])
        (runCode ⟨true⟩ (Script.body [Stmt.loopReg "bass" "8n" fun _ => Except.ok ()])
          initialState).2.1).2.1.scheduledEvents =
      (scriptLoops (Script.body [Stmt.loopReg "kick" "4n" fun _ => Except.ok ()])
        (runCode ⟨true⟩ (Script.body [Stmt.loopReg "bass" "8n" fun _ => Except.ok ()])
          initialState).2.1.nextEventId).map ScheduledLoop.id) :=
  ⟨Or.inr rfl,
   c2_two_runs ⟨true⟩ (Script.body [Stmt.loopReg "bass" "8n" fun _ => Except.ok ()])
     (Script.body [Stmt.loopReg "kick" "4n" fun _ => Except.ok ()]) initialState
     (Or.inr rfl)⟩

/-- C3: for every registered loop and every tick at which its callback
throws, the wrapper installed by `customLoop` catches the exception and emits
exactly one error log line containing that loop's name; the engine state is
untouched by the tick (the Transport keeps running, no loop — the throwing
one included — is removed from the schedule), so the same loop's subsequent
ticks still fire, and a tick where the callback completes logs nothing. -/
theorem c3_loop_wrapper (s : EngineState) (l : ScheduledLoop) (t : Nat)
    (m : String) (hrun : s.transportRunning = true) (hmem : l ∈ s.schedule)
    (hthrow : l.callback t = .error m) :
    loopWrapper l.name l.callback t = [⟨runtimeErrMsg l.name m, .error⟩] ∧
    (∃ pre post, runtimeErrMsg l.name m = pre ++ (l.name ++ post)) ∧
    (transportTick s t).1 = s ∧
    l ∈ (transportTick s t).1.schedule ∧
    (transportTick s t).1.transportRunning = true ∧
    (∀ t2, l.callback t2 = .ok () → loopWrapper l.name l.callback t2 = []) := by
  refine ⟨?_, ?_, ?_, ?_, ?_, ?_⟩
  · simp [loopWrapper, hthrow]
  · refine ⟨"Runtime Error inside loop " ++ apos, apos ++ (": " ++ m), ?_⟩
    simp [runtimeErrMsg, String.append_assoc]
  · simp [transportTick, hrun]
  · simpa [transportTick, hrun] using hmem
  · simp [transportTick, hrun]
  · intro t2 h2
    simp [loopWrapper, h2]

/-- Witness for C3: a loop named bass whose callback throws on tick 3. -/
theorem c3_witness :
    runningWithBassLoop.transportRunning = true ∧
    (⟨0, "bass", "8n", throwsOnTick3⟩ : ScheduledLoop) ∈ runningWithBassLoop.schedule ∧
    (⟨0, "bass", "8n", throwsOnTick3⟩ : ScheduledLoop).callback 3 = .error "boom" ∧
    (loopWrapper "bass" throwsOnTick3 3 = [⟨runtimeErrMsg "bass" "boom", .error⟩] ∧
     (∃ pre post, runtimeErrMsg "bass" "boom" = pre ++ ("bass" ++ post)) ∧
     (transportTick runningWithBassLoop 3).1 = runningWithBassLoop ∧
     (⟨0, "bass", "8n", throwsOnTick3⟩ : ScheduledLoop) ∈
       (transportTick runningWithBassLoop 3).1.schedule ∧
     (transportTick runningWithBassLoop 3).1.transportRunning = true ∧
     (∀ t2, throwsOnTick3 t2 = .ok () → loopWrapper "bass" throwsOnTick3 t2 = [])) :=
  ⟨rfl, by simp [runningWithBassLoop], rfl,
   c3_loop_wrapper runningWithBassLoop ⟨0, "bass", "8n", throwsOnTick3⟩ 3 "boom"
     rfl (by simp [runningWithBassLoop]) rfl⟩

/-- C4: the compiled script unit's free variables are bound, by parameters of
the `Function` constructor and not through global scope, exactly to the five
instrument handles by their fixed names, the `loop` registration primitive,
and the `Tone` namespace of the synthesis library (the code passes the whole
`Tone` object, whose time utilities scripts use); the binding environment of
the unit contains nothing else the engine holds internally. -/
theorem c4_sandbox_binding (s : EngineState) :
    (sandboxEnv s).map Prod.fst =
      ["synth", "kick", "hat", "snare", "poly", "loop", "Tone"] ∧
    sandboxEnv s =
      [("synth", .instrument s.synth), ("kick", .instrument s.kick),
       ("hat", .instrument s.hat), ("snare", .instrument s.snare),
       ("poly", .instrument s.poly), ("loop", .loopPrim),
       ("Tone", .toneNamespace)] ∧
    ∀ x ∈ sandboxEnv s, x.1 ∈ sandboxParams := by
  refine ⟨rfl, rfl, ?_⟩
  intro x hx
  fin_cases hx <;> simp [sandboxParams]

/-- C5, code evaluation at the failing input: `stop` on a pool where every
voice is holding a note releases only `poly` (`releaseAll`) and `synth`
(`triggerRelease`); `kick`, `hat` and `snare` are left with their notes still
active, contradicting the claim (and the comment in `stop` itself) that every
voice is forced into its release phase. -/
theorem c5_stop_code_eval :
    (stop heldPool).synth.map Voice.active = some false ∧
    (stop heldPool).poly.map Voice.active = some false ∧
    (stop heldPool).kick.map Voice.active = some true ∧
    (stop heldPool).hat.map Voice.active = some true ∧
    (stop heldPool).snare.map Voice.active = some true :=
  ⟨rfl, rfl, rfl, rfl, rfl⟩

/-- C6: for every script whose synchronous execution completes without
throwing (after initialization succeeds), `runCode` returns `{success:true}`
and the Transport has been started — it is in the running state, with exactly
one additional `Tone.Transport.start()` call made — when the returned promise
resolves. -/
theorem c6_success_starts_transport (env : Env) (script : Script)
    (s s₁ : EngineState) (hinit : initializeEngine env s = .ok s₁)
    (hok : scriptError script = none) :
    (runCode env script s).1 = ⟨true, none⟩ ∧
    (runCode env script s).2.1.transportRunning = true ∧
    (runCode env script s).2.1.startCalls = s.startCalls + 1 :=
  (runCode_spec env script s s₁ hinit).2.2.2.1 hok

/-- Witness for C6 on a concrete loop-registering script. -/
theorem c6_witness :
    initializeEngine ⟨true⟩ initialState =
      .ok (createInstruments { initialState with contextStarted := true }) ∧
    scriptError (Script.body [Stmt.loopReg "kick" "4n" fun _ => Except.ok ()]) = none ∧
    ((runCode ⟨true⟩ (Script.body [Stmt.loopReg "kick" "4n" fun _ => Except.ok ()])
        initialState).1 = ⟨true, none⟩ ∧
     (runCode ⟨true⟩ (Script.body [Stmt.loopReg "kick" "4n" fun _ => Except.ok ()])
        initialState).2.1.transportRunning = true ∧
     (runCode ⟨true⟩ (Script.body [Stmt.loopReg "kick" "4n" fun _ => Except.ok ()])
        initialState).2.1.startCalls = initialState.startCalls + 1) :=
  ⟨rfl, rfl, c6_success_starts_transport ⟨true⟩
    (Script.body [Stmt.loopReg "kick" "4n" fun _ => Except.ok ()]) initialState
    (createInstruments { initialState with contextStarted := true }) rfl rfl⟩

/-- C7, counterexample: the claim says a device-acquisition failure during
initialization surfaces as a distinct `InitializationError` condition, not as
a compile/execution error of the script.  In the code there is no such
condition: the rejection of `Tone.start()` is caught by the same catch block,
logged with the same `Compilation Error:` prefix, and returned in the same
`{success:false, error}` shape.  Concretely, a run failing at initialization
is observationally identical (result and log) to a run failing with a syntax
error carrying the same message. -/
theorem c7_counterexample :
    (runCode ⟨false⟩ (Script.body [Stmt.nop]) initialState).1 =
      (runCode ⟨true⟩ (Script.syntaxError initErrorMsg) initialState).1 ∧
    (runCode ⟨false⟩ (Script.body [Stmt.nop]) initialState).2.2 =
      (runCode ⟨true⟩ (Script.syntaxError initErrorMsg) initialState).2.2 ∧
    (runCode ⟨false⟩ (Script.body [Stmt.nop]) initialState).2.2 =
      [⟨compileErrMsg initErrorMsg, LogType.error⟩] :=
  ⟨rfl, rfl, rfl⟩

/-- C7, amended: when the audio output device cannot be acquired during
initialization, `runCode` catches the rejection in its generic catch block,
logs it with the `Compilation Error:` prefix, returns `{success:false}` with
the device error message, and leaves the engine state untouched; the
condition is retryable — a later call with user-gesture permission
initializes successfully — but it is not surfaced as a condition distinct
from a compile/execution error. -/
theorem c7_init_failure (env : Env) (script : Script) (s : EngineState)
    (hg : env.userGesture = false) (hc : s.contextStarted = false) :
    runCode env script s =
      (⟨false, some initErrorMsg⟩, s, [⟨compileErrMsg initErrorMsg, .error⟩]) ∧
    ∀ env2 : Env, env2.userGesture = true →
      initializeEngine env2 s = .ok (createInstruments { s with contextStarted := true }) := by
  constructor
  · have h : initializeEngine env s = .error initErrorMsg := by
      simp [initializeEngine, toneStart, hc, hg, Except.map]
    simp [runCode, h]
  · intro env2 hg2
    simp [initializeEngine, toneStart, hc, hg2, Except.map]

/-- Witness for C7 on the uninitialized engine without a user gesture. -/
theorem c7_witness :
    Env.userGesture ⟨false⟩ = false ∧
    initialState.contextStarted = false ∧
    (runCode ⟨false⟩ (Script.body [Stmt.nop]) initialState =
       (⟨false, some initErrorMsg⟩, initialState,
        [⟨compileErrMsg initErrorMsg, .error⟩]) ∧
     ∀ env2 : Env, env2.userGesture = true →
       initializeEngine env2 initialState =
         .ok (createInstruments { initialState with contextStarted := true })) :=
  ⟨rfl, rfl, c7_init_failure ⟨false⟩ (Script.body [Stmt.nop]) initialState rfl rfl⟩

/-- C8: `initialize` is idempotent.  It creates the analyser and each of the
five instruments only when the field is still null, so every instrument
object present before a call is the same object afterwards, and after a first
successful call every subsequent call returns exactly the same state — the
instrument pool and audio graph are unchanged. -/
theorem c8_ensureReady_idempotent (env : Env) (s s₁ : EngineState)
    (h : initializeEngine env s = .ok s₁) :
    initializeEngine env s₁ = .ok s₁ ∧
    (∀ v, s.analyser = some v → s₁.analyser = some v) ∧
    (∀ v, s.synth = some v → s₁.synth = some v) ∧
    (∀ v, s.kick = some v → s₁.kick = some v) ∧
    (∀ v, s.hat = some v → s₁.hat = some v) ∧
    (∀ v, s.snare = some v → s₁.snare = some v) ∧
    (∀ v, s.poly = some v → s₁.poly = some v) := by
  obtain ⟨hctx, ha, h1, h2, h3, h4, h5, -, -, -, -, -, -⟩ :=
    initializeEngine_spec env s s₁ h
  have hkeeps := initializeEngine_keeps env s s₁ h
  refine ⟨?_, hkeeps.1, hkeeps.2.1, hkeeps.2.2.1, hkeeps.2.2.2.1,
    hkeeps.2.2.2.2.1, hkeeps.2.2.2.2.2⟩
  have heq := createInstruments_eq_self s₁ ha h1 h2 h3 h4 h5
  simp [initializeEngine, toneStart, hctx, Except.map, heq]

/-- Witness for C8: a second call after a first successful one. -/
theorem c8_witness :
    initializeEngine ⟨true⟩ initialState =
      .ok (createInstruments { initialState with contextStarted := true }) ∧
    (initializeEngine ⟨true⟩ (createInstruments { initialState with contextStarted := true }) =
       .ok (createInstruments { initialState with contextStarted := true }) ∧
     (∀ v, initialState.analyser = some v →
        (createInstruments { initialState with contextStarted := true }).analyser = some v) ∧
     (∀ v, initialState.synth = some v →
        (createInstruments { initialState with contextStarted := true }).synth = some v) ∧
     (∀ v, initialState.kick = some v →
        (createInstruments { initialState with contextStarted := true }).kick = some v) ∧
     (∀ v, initialState.hat = some v →
        (createInstruments { initialState with contextStarted := true }).hat = some v) ∧
     (∀ v, initialState.snare = some v →
        (createInstruments { initialState with contextStarted := true }).snare = some v) ∧
     (∀ v, initialState.poly = some v →
        (createInstruments { initialState with contextStarted := true }).poly = some v)) :=
  ⟨rfl, c8_ensureReady_idempotent ⟨true⟩ initialState
    (createInstruments { initialState with contextStarted := true }) rfl⟩

/-- C9: calling `stop` when nothing is running — in particular before the
pool was ever initialized, every instrument field being null — cannot throw
(it is a total function; the null checks make the release calls unreachable)
and has no effect beyond leaving the Transport stopped at position zero with
an empty schedule and an empty `scheduledEvents` list: every other field,
the instrument fields included, is exactly as before. -/
theorem c9_stop_uninitialized (s : EngineState)
    (h1 : s.synth = none) (h2 : s.kick = none) (h3 : s.hat = none)
    (h4 : s.snare = none) (h5 : s.poly = none) :
    stop s = { s with transportRunning := false, transportPosition := 0,
                      schedule := [], scheduledEvents := [] } := by
  simp [stop, h1, h5]

/-- Witness for C9 on the never-initialized engine. -/
theorem c9_witness :
    initialState.synth = none ∧ initialState.kick = none ∧
    initialState.hat = none ∧ initialState.snare = none ∧
    initialState.poly = none ∧
    stop initialState =
      { initialState with transportRunning := false, transportPosition := 0,
                          schedule := [], scheduledEvents := [] } :=
  ⟨rfl, rfl, rfl, rfl, rfl,
   c9_stop_uninitialized initialState rfl rfl rfl rfl rfl⟩

/-- C10, counterexample: the claim says that whenever `runCode` returns
`{success:false}` for a script failure (initialization having succeeded), the
scheduled-events set is empty.  A script that registers a loop and then
throws leaves that loop's handle in `scheduledEvents` (and the loop in the
Transport schedule): the set holds the failing run's own partial
registrations, not nothing. -/
theorem c10_counterexample :
    (runCode ⟨true⟩
      (Script.body [Stmt.loopReg "a" "4n" fun _ => Except.ok (), Stmt.throwErr "boom"])
      initialState).1.success = false ∧
    (runCode ⟨true⟩
      (Script.body [Stmt.loopReg "a" "4n" fun _ => Except.ok (), Stmt.throwErr "boom"])
      initialState).2.1.scheduledEvents = [0] ∧
    (runCode ⟨true⟩
      (Script.body [Stmt.loopReg "a" "4n" fun _ => Except.ok (), Stmt.throwErr "boom"])
      initialState).2.1.scheduledEvents ≠ [] :=
  ⟨rfl, rfl, by decide⟩

/-- C10, amended: when `runCode` returns `{success:false}` because the script
failed to compile or execute (initialization having succeeded), the previous
run has been fully torn down — the Transport is stopped and was not started,
and none of the previously scheduled loops survive: the Transport schedule
and the `scheduledEvents` list hold exactly the failing script's own
registrations made before the throw (empty when it failed at compile time or
before any registration). -/
theorem c10_failed_run_teardown (env : Env) (script : Script)
    (s s₁ : EngineState) (hinit : initializeEngine env s = .ok s₁)
    (m : String) (herr : scriptError script = some m) :
    (runCode env script s).1.success = false ∧
    (runCode env script s).2.1.transportRunning = false ∧
    (runCode env script s).2.1.startCalls = s.startCalls ∧
    (runCode env script s).2.1.schedule = scriptLoops script s.nextEventId ∧
    (runCode env script s).2.1.scheduledEvents =
      (scriptLoops script s.nextEventId).map ScheduledLoop.id := by
  have h := runCode_spec env script s s₁ hinit
  have h5 := h.2.2.2.2 m herr
  exact ⟨by rw [h5.1], h5.2.1, h5.2.2.1, h.1, h.2.1⟩

/-- Witness for C10 on a syntax-error script run after a successful run. -/
theorem c10_witness :
    initializeEngine ⟨true⟩ initialState =
      .ok (createInstruments { initialState with contextStarted := true }) ∧
    scriptError (Script.syntaxError "bad") = some "bad" ∧
    ((runCode ⟨true⟩ (Script.syntaxError "bad") initialState).1.success = false ∧
     (runCode ⟨true⟩ (Script.syntaxError "bad") initialState).2.1.transportRunning = false ∧
     (runCode ⟨true⟩ (Script.syntaxError "bad") initialState).2.1.startCalls =
       initialState.startCalls ∧
     (runCode ⟨true⟩ (Script.syntaxError "bad") initialState).2.1.schedule =
       scriptLoops (Script.syntaxError "bad") initialState.nextEventId ∧
     (runCode ⟨true⟩ (Script.syntaxError "bad") initialState).2.1.scheduledEvents =
       (scriptLoops (Script.syntaxError "bad") initialState.nextEventId).map
         ScheduledLoop.id) :=
  ⟨rfl, rfl, c10_failed_run_teardown ⟨true⟩ (Script.syntaxError "bad") initialState
    (createInstruments { initialState with contextStarted := true }) rfl "bad" rfl⟩
